import Mathlib

/-!
Shallow embedding of the Zonos audio-generation HTTP API (`src/api/api.py`).

The filesystem is modelled as a partial map from path strings to file data.
The pydub library (decoding, resampling, remixing) and the synthesis engine
(torchaudio + the Zonos model) are external collaborators: they appear as
records of uninterpreted functions that each theorem quantifies over, while
everything the repository's own code does — sanitization, path construction,
extension tests, conversion decisions, the write/remove/rename sequences and
the try/except error boundary — is translated directly from the source.
-/

namespace ZonosApi

/-- Content of one stored file: either raw uploaded bytes or an exported WAV
segment (pydub's export writes the segment's parameters into the container). -/
structure AudioSeg where
  frame_rate : Nat
  channels : Nat
  sample_width : Nat
  samples : List Int
deriving DecidableEq, Repr

inductive FileData where
  | raw (bytes : List Nat)
  | wav (seg : AudioSeg)
deriving DecidableEq, Repr

/-- A filesystem: paths to file contents. -/
def FS : Type := String → Option FileData

def fsEmpty : FS := fun _ => none

/-- Model of `open(p, "wb"); write(d)`. -/
def fswrite (fs : FS) (p : String) (d : FileData) : FS :=
  fun q => if q = p then some d else fs q

/-- Model of `os.remove(p)`. -/
def fsremove (fs : FS) (p : String) : FS :=
  fun q => if q = p then none else fs q

/-- Model of `os.rename(p, q)`: the file moves from p to q (a no-op when the
two paths coincide). -/
def fsrename (fs : FS) (p q : String) : FS :=
  fun r => if r = q then fs p else if r = p then none else fs r

/-- External pydub backend: decoding of raw bytes may fail (unparseable
container); the three data transforms are uninterpreted. -/
structure Pydub where
  decode_raw : List Nat → Except String AudioSeg
  resample : Nat → Nat → List Int → List Int
  remix : Nat → Nat → List Int → List Int
  rewidth : Nat → Nat → List Int → List Int

/-- Model of pydub `AudioSegment.set_frame_rate`. -/
def set_frame_rate (pd : Pydub) (a : AudioSeg) (r : Nat) : AudioSeg :=
  { a with frame_rate := r, samples := pd.resample a.frame_rate r a.samples }

/-- Model of pydub `AudioSegment.set_channels`. -/
def set_channels (pd : Pydub) (a : AudioSeg) (n : Nat) : AudioSeg :=
  { a with channels := n, samples := pd.remix a.channels n a.samples }

/-- Model of pydub `AudioSegment.set_sample_width`. -/
def set_sample_width (pd : Pydub) (a : AudioSeg) (w : Nat) : AudioSeg :=
  { a with sample_width := w, samples := pd.rewidth a.sample_width w a.samples }

/-- Model of pydub `AudioSegment.from_file`: a previously exported WAV decodes
to its own segment; raw bytes go through the external decoder. -/
def from_file (pd : Pydub) : FileData → Except String AudioSeg
  | .raw b => pd.decode_raw b
  | .wav seg => .ok seg

/-- The chain `audio.set_frame_rate(16000).set_channels(1).set_sample_width(2)`
from `convert_to_wav` (api.py line 45). -/
def canonicalize (pd : Pydub) (a : AudioSeg) : AudioSeg :=
  set_sample_width pd (set_channels pd (set_frame_rate pd a 16000) 1) 2

/-- Model of `convert_to_wav` (api.py lines 40-46): decode the input file,
force 16 kHz / mono / 16-bit, export as WAV to `output_path`. An `Except`
error stands for the Python exception pydub raises (missing file or
undecodable container). -/
def convert_to_wav (pd : Pydub) (fs : FS) (input_path output_path : String) :
    Except String FS :=
  match fs input_path with
  | none => .error "No such file or directory"
  | some fd =>
    match from_file pd fd with
    | .error msg => .error msg
    | .ok audio => .ok (fswrite fs output_path (.wav (canonicalize pd audio)))

/-- Character class of the regex `[^a-zA-Z0-9_-]` in `sanitize_filename`:
true exactly on the characters the regex does NOT match. -/
def is_allowed (c : Char) : Bool :=
  ('a' ≤ c && c ≤ 'z') || ('A' ≤ c && c ≤ 'Z') || ('0' ≤ c && c ≤ '9')
    || (c == '_') || (c == '-')

/-- Model of `sanitize_filename` (api.py lines 34-38):
`re.sub(r'[^a-zA-Z0-9_-]', '_', filename)` replaces every character outside
the class with an underscore, one character at a time. -/
def sanitize_filename (s : String) : String :=
  String.mk (s.data.map fun c => if is_allowed c then c else '_')

/-- Model of Python `s.endswith(suffix)`. -/
def py_endswith (s suf : String) : Bool :=
  suf.data.isSuffixOf s.data

/-- Model of Python `s.split('.')[-1]`: the substring after the last dot
(the whole string when there is no dot). -/
def py_last_split_dot (s : String) : String :=
  String.mk ((s.data.reverse.takeWhile fun c => c != '.').reverse)

def OUTPUT_DIR : String := "/data/generated_audio"

def SAMPLES_DIR : String := "/data/samples"

/-- A FastAPI UploadFile as the handlers see it: a client-chosen filename and
the uploaded bytes. -/
structure UploadFileReq where
  filename : String
  content : List Nat
deriving DecidableEq, Repr

/-- A Python exception in flight: either a fastapi `HTTPException` or any
other exception carrying its message. -/
inductive PyExc where
  | http (status : Nat) (detail : String)
  | other (msg : String)
deriving DecidableEq, Repr

/-- Model of `str(e)`: starlette's `HTTPException.__str__` prints
"status: detail"; for other exceptions the message itself. -/
def exc_str : PyExc → String
  | .http s d => Nat.repr s ++ ": " ++ d
  | .other m => m

/-- An HTTP error response as produced by raising `HTTPException` at the
request boundary. -/
structure HTTPErr where
  status_code : Nat
  detail : String
deriving DecidableEq, Repr

def UPLOAD_OK_MESSAGE : String := "Sample uploaded and converted successfully"

structure UploadResp where
  message : String
  sample_name : String
deriving DecidableEq, Repr

/-- Staging path of `upload_sample` (api.py line 56). -/
def sample_temp_path (sn ext : String) : String :=
  SAMPLES_DIR ++ "/" ++ sn ++ "." ++ ext

/-- Stored sample path of `upload_sample` (api.py line 57). -/
def sample_wav_path (sn : String) : String :=
  SAMPLES_DIR ++ "/" ++ sn ++ ".wav"

/-- Body of `upload_sample` (api.py lines 48-69): sanitize the name, stage
the raw bytes under the original extension, convert unless the staging path
already ends in ".wav" (then just rename), removing the staging file after a
conversion. An `Except` error is an uncaught Python exception. -/
def upload_sample (pd : Pydub) (fs : FS) (sample_name : String)
    (audio_file : UploadFileReq) : FS × Except PyExc UploadResp :=
  let sn := sanitize_filename sample_name
  let temp_path := sample_temp_path sn (py_last_split_dot audio_file.filename)
  let output_path := sample_wav_path sn
  let fs1 := fswrite fs temp_path (.raw audio_file.content)
  if !(py_endswith temp_path ".wav") then
    match convert_to_wav pd fs1 temp_path output_path with
    | .error msg => (fs1, .error (.other msg))
    | .ok fs2 => (fsremove fs2 temp_path, .ok ⟨UPLOAD_OK_MESSAGE, sn⟩)
  else
    (fsrename fs1 temp_path output_path, .ok ⟨UPLOAD_OK_MESSAGE, sn⟩)

/-- HTTP boundary of `upload_sample` (api.py lines 70-71): any exception
becomes a 500 with the exception text. -/
def upload_sample_endpoint (pd : Pydub) (fs : FS) (sample_name : String)
    (audio_file : UploadFileReq) : FS × Except HTTPErr UploadResp :=
  match upload_sample pd fs sample_name audio_file with
  | (fs1, .error e) => (fs1, .error ⟨500, exc_str e⟩)
  | (fs1, .ok r) => (fs1, .ok r)

/-- Query/form parameters of `generate_audio` (api.py lines 74-91) with the
source's declared defaults; floats are embedded as rationals. -/
structure GenReq where
  text : String
  sample_name : Option String := none
  happiness : ℚ := 0
  sadness : ℚ := 0
  disgust : ℚ := 0
  fear : ℚ := 0
  surprise : ℚ := 0
  anger : ℚ := 0
  other : ℚ := 0
  neutral : ℚ := 1
  vq_score : ℚ := 78 / 100
  fmax : ℤ := 24000
  pitch_std : ℚ := 45
  speaking_rate : ℚ := 15
  dnsmos_ovrl : ℚ := 4
  speaker_noised : Bool := false
  audio_file : Option UploadFileReq := none

/-- Python truthiness of an optional string parameter defaulting to None:
None and the empty string are falsy. -/
def py_truthy_str : Option String → Bool
  | none => false
  | some s => s != ""

/-- Stored sample path looked up by `generate_audio` (api.py line 101). -/
def generate_sample_path (sn : String) : String :=
  SAMPLES_DIR ++ "/" ++ sn ++ ".wav"

/-- Staging path for an inline upload (api.py line 105): the client-supplied
filename joined verbatim onto the output directory. -/
def inline_temp_path (filename : String) : String :=
  OUTPUT_DIR ++ "/" ++ filename

/-- Scratch path for a converted inline upload (api.py line 106). -/
def converted_path : String := OUTPUT_DIR ++ "/converted.wav"

/-- Step 1 of `generate_audio` (api.py lines 99-120): resolve the audio
source to a path, preferring a truthy `sample_name` over an inline upload.
Returns the filesystem after any staging writes together with either the
resolved path or the Python exception raised. -/
def resolve_source (pd : Pydub) (req : GenReq) (fs : FS) :
    FS × Except PyExc String :=
  if py_truthy_str req.sample_name then
    let sn := sanitize_filename (req.sample_name.getD "")
    let input_audio_path := generate_sample_path sn
    if (fs input_audio_path).isSome then (fs, .ok input_audio_path)
    else (fs, .error (.http 404 "Sample not found"))
  else
    match req.audio_file with
    | some af =>
      let temp_path := inline_temp_path af.filename
      let output_path := converted_path
      let fs1 := fswrite fs temp_path (.raw af.content)
      if !(py_endswith temp_path ".wav") then
        match convert_to_wav pd fs1 temp_path output_path with
        | .error msg => (fs1, .error (.other msg))
        | .ok fs2 => (fsremove fs2 temp_path, .ok output_path)
      else
        (fsrename fs1 temp_path output_path, .ok output_path)
    | none =>
      (fs, .error (.http 400 "Either sample_name or audio_file must be provided"))

/-- The emotion list built at api.py line 127, in source order. -/
def emotion_values (req : GenReq) : List ℚ :=
  [req.happiness, req.sadness, req.disgust, req.fear, req.surprise,
   req.anger, req.other, req.neutral]

/-- The conditioning dictionary assembled by `make_cond_dict`
(api.py lines 131-142); the speaker embedding is supplied separately to the
engine together with this record. -/
structure CondDict where
  text : String
  language : String
  emotion : List ℚ
  vqscore_8 : List ℚ
  fmax : ℤ
  pitch_std : ℚ
  speaking_rate : ℚ
  dnsmos_ovrl : ℚ
  speaker_noised : Bool
deriving DecidableEq, Repr

def make_cond (req : GenReq) : CondDict :=
  { text := req.text
    language := "en-us"
    emotion := emotion_values req
    vqscore_8 := List.replicate 8 req.vq_score
    fmax := req.fmax
    pitch_std := req.pitch_std
    speaking_rate := req.speaking_rate
    dnsmos_ovrl := req.dnsmos_ovrl
    speaker_noised := req.speaker_noised }

/-- External synthesis engine: torchaudio load + speaker embedding +
conditioning + generation + decode, collapsed into one uninterpreted call
from the resolved audio file and the conditioning record to the generated
audio file data (or a raised exception's message). -/
structure Engine where
  synth : FileData → CondDict → Except String FileData

/-- Fixed output slot of `generate_audio` (api.py line 150). -/
def output_wav_path : String := OUTPUT_DIR ++ "/output.wav"

/-- FileResponse as returned on success (api.py line 153). -/
structure FileResp where
  path : String
  media_type : String
  filename : String
deriving DecidableEq, Repr

/-- Model of `generate_audio` (api.py lines 73-156) including its try/except
boundary: EVERY exception of the body — the explicitly raised 404 and 400
HTTPExceptions included, since fastapi's HTTPException is an Exception — is
caught at lines 155-156 and re-raised as a 500 whose detail is `str(e)`. -/
def generate_audio (pd : Pydub) (eng : Engine) (req : GenReq) (fs : FS) :
    FS × Except HTTPErr FileResp :=
  match resolve_source pd req fs with
  | (fs1, .error e) => (fs1, .error ⟨500, exc_str e⟩)
  | (fs1, .ok input_audio_path) =>
    match fs1 input_audio_path with
    | none => (fs1, .error ⟨500, "Error loading audio file"⟩)
    | some fd =>
      match eng.synth fd (make_cond req) with
      | .error msg => (fs1, .error ⟨500, msg⟩)
      | .ok out =>
        (fswrite fs1 output_wav_path out,
         .ok ⟨output_wav_path, "audio/wav", "output.wav"⟩)

/-- CanonicalAudio check on a stored file: decoding it yields 16 kHz, mono,
16-bit audio. -/
def isCanonicalFile (pd : Pydub) (fd : FileData) : Bool :=
  match from_file pd fd with
  | .ok seg => seg.frame_rate == 16000 && seg.channels == 1 && seg.sample_width == 2
  | .error _ => false

/-- A concrete pydub backend whose decoder accepts everything as 44.1 kHz
stereo 16-bit and whose transforms keep the sample list; used to instantiate
witnesses and counterexamples. -/
def pdTriv : Pydub :=
  ⟨fun b => .ok ⟨44100, 2, 2, b.map Int.ofNat⟩,
   fun _ _ d => d, fun _ _ d => d, fun _ _ d => d⟩

/-- A concrete pydub backend that fails to decode any raw bytes. -/
def pdFail : Pydub :=
  ⟨fun _ => .error "Decoding failed. ffmpeg returned error code 1",
   fun _ _ d => d, fun _ _ d => d, fun _ _ d => d⟩

/-- A concrete engine that always synthesizes an empty waveform file. -/
def engTriv : Engine :=
  ⟨fun _ _ => .ok (.raw [])⟩


/-- Request of C1: generate with a sample name that has no stored sample. -/
def reqMissingSample : GenReq := { text := "hi", sample_name := some "ghost" }

/-- Request of C3: generate with neither sample_name nor audio_file. -/
def reqNoSource : GenReq := { text := "hi" }

/-- Request of C2's counterexample: an inline ".wav"-named upload whose real
content is not canonical. -/
def reqWavBypass : GenReq := { text := "t", audio_file := some ⟨"x.wav", [7]⟩ }

/-- A one-file filesystem used by C8's theorems. -/
def fsSingle : FS := fun p => if p = "/tmp/in.mp3" then some (.raw [5]) else none

/-- A filesystem holding one stored sample, used by C9's witness. -/
def fsV : FS := fun p => if p = "/data/samples/v.wav" then some (.raw [2]) else none

/-- What upload_sample leaves under the sanitized key when it succeeds: the
raw bytes for a ".wav"-named upload, the canonicalized conversion otherwise
(none when the decoder rejects the bytes, in which case the upload fails). -/
def stored_content (pd : Pydub) (af : UploadFileReq) : Option FileData :=
  if py_last_split_dot af.filename = "wav" then some (.raw af.content)
  else
    match pd.decode_raw af.content with
    | .ok seg => some (.wav (canonicalize pd seg))
    | .error _ => none

/-- Boolean form of "the file stored at p satisfies CanonicalAudio". -/
def canonical_at (pd : Pydub) (fs : FS) (p : String) : Bool :=
  ((fs p).map fun fd => isCanonicalFile pd fd).getD false

/-! Basic filesystem lemmas. -/

theorem fswrite_self (fs : FS) (p : String) (d : FileData) :
    fswrite fs p d p = some d := by
  simp [fswrite]

theorem fswrite_other (fs : FS) (p q : String) (d : FileData) (h : q ≠ p) :
    fswrite fs p d q = fs q := by
  simp [fswrite, h]

/-! Sanitizer lemmas. -/

theorem is_allowed_underscore : is_allowed '_' = true := by decide

theorem sanitize_char_idem (c : Char) :
    (if is_allowed (if is_allowed c then c else '_')
      then (if is_allowed c then c else '_') else '_')
      = (if is_allowed c then c else '_') := by
  by_cases h : is_allowed c = true
  · simp [h]
  · simp [h]

/-- C5: sanitize is idempotent, and on nonempty input the output is a
nonempty string all of whose characters lie in the class [A-Za-z0-9_-]. -/
theorem sanitize_idempotent_nonempty_valid :
    (∀ s : String, sanitize_filename (sanitize_filename s) = sanitize_filename s) ∧
    (∀ s : String, s ≠ "" →
      sanitize_filename s ≠ "" ∧ ∀ c ∈ (sanitize_filename s).data, is_allowed c = true) := by
  constructor
  · intro s
    apply String.ext
    show List.map _ (List.map _ s.data) = List.map _ s.data
    rw [List.map_map]
    apply List.map_congr_left
    intro a _
    exact sanitize_char_idem a
  · intro s hs
    constructor
    · intro h
      apply hs
      have h2 : s.data.map (fun c => if is_allowed c then c else '_') = [] :=
        congrArg String.data h
      exact String.ext (List.map_eq_nil_iff.mp h2)
    · intro c hc
      have hc2 : c ∈ s.data.map (fun c => if is_allowed c then c else '_') := hc
      obtain ⟨a, _, rfl⟩ := List.mem_map.mp hc2
      by_cases h : is_allowed a = true
      · simp [h]
      · rw [if_neg h]
        decide

/-- Witness for C5 at the concrete input "a b!". -/
theorem sanitize_idempotent_nonempty_valid_witness :
    sanitize_filename (sanitize_filename "a b!") = sanitize_filename "a b!" ∧
    sanitize_filename "a b!" ≠ "" :=
  ⟨sanitize_idempotent_nonempty_valid.1 "a b!",
   (sanitize_idempotent_nonempty_valid.2 "a b!" (by decide)).1⟩

/-- C10: a generate request that sets none of the eight emotion parameters
produces exactly the emotion vector [0,0,0,0,0,0,0,1] in the source order
happiness, sadness, disgust, fear, surprise, anger, other, neutral inside the
conditioning record. -/
theorem default_emotion_vector (t : String) (sn : Option String)
    (af : Option UploadFileReq) :
    (make_cond { text := t, sample_name := sn, audio_file := af }).emotion
      = [0, 0, 0, 0, 0, 0, 0, 1] := rfl


/-- C1: a generate request naming an absent sample does NOT surface as a 404:
the explicitly raised 404 HTTPException is caught by the handler's blanket
except clause and re-raised as a generic 500 whose detail is the printed
exception. This theorem evaluates the handler at the failing input. -/
theorem missing_sample_surfaced_as_500 :
    (generate_audio pdTriv engTriv reqMissingSample fsEmpty).2
      = .error ⟨500, "404: Sample not found"⟩ := rfl


/-- C3: a generate request with neither sample_name nor audio_file does NOT
surface as a 400: the explicitly raised 400 HTTPException is caught by the
handler's blanket except clause and re-raised as a generic 500. This theorem
evaluates the handler at the failing input. -/
theorem missing_source_surfaced_as_500 :
    (generate_audio pdTriv engTriv reqNoSource fsEmpty).2
      = .error ⟨500, "400: Either sample_name or audio_file must be provided"⟩ := rfl


/-- C2 counterexample: an inline upload whose name ends in ".wav" but whose
actual content decodes to 44.1 kHz stereo is renamed into place without
conversion, so a non-CanonicalAudio file reaches the embedding stage. -/
theorem canonical_audio_counterexample :
    (resolve_source pdTriv reqWavBypass fsEmpty).2 = .ok converted_path ∧
    (resolve_source pdTriv reqWavBypass fsEmpty).1 converted_path = some (.raw [7]) ∧
    isCanonicalFile pdTriv (.raw [7]) = false := ⟨rfl, rfl, rfl⟩


/-- C8 counterexample: calling convert_to_wav with output_path equal to
input_path overwrites the (decodable) input file with the converted data, so
"the input file is not mutated" fails as a universal statement. -/
theorem convert_to_wav_inplace_mutation :
    from_file pdTriv (.raw [5]) = .ok ⟨44100, 2, 2, [5]⟩ ∧
    (convert_to_wav pdTriv fsSingle "/tmp/in.mp3" "/tmp/in.mp3").toOption.map
        (fun f => f "/tmp/in.mp3")
      = some (some (.wav ⟨16000, 1, 2, [5]⟩)) ∧
    fsSingle "/tmp/in.mp3" = some (.raw [5]) ∧
    some (FileData.wav ⟨16000, 1, 2, [5]⟩) ≠ some (FileData.raw [5]) :=
  ⟨rfl, rfl, rfl, by decide⟩

/-! String and path lemmas. -/

theorem py_endswith_append (x suf : String) : py_endswith (x ++ suf) suf = true := by
  unfold py_endswith
  rw [ List.isSuffixOf_iff_suffix, String.data_append]
  exact List.suffix_append _ _

theorem py_last_split_dot_no_dot (s : String) : '.' ∉ (py_last_split_dot s).data := by
  intro h
  have h2 : ('.' : Char) ∈ s.data.reverse.takeWhile (fun c => c != '.') := by
    have he : (py_last_split_dot s).data
        = (s.data.reverse.takeWhile fun c => c != '.').reverse := rfl
    rw [he, List.mem_reverse] at h
    exact h
  have h3 := List.mem_takeWhile_imp h2
  simp at h3

theorem string_append_cancel_left (a b c : String) (h : a ++ b = a ++ c) : b = c := by
  apply String.ext
  have hd := congrArg String.data h
  rw [String.data_append, String.data_append] at hd
  exact List.append_cancel_left hd

theorem string_append_assoc (a b c : String) : (a ++ b) ++ c = a ++ (b ++ c) := by
  apply String.ext
  simp [String.data_append, List.append_assoc]

theorem py_endswith_dot_ext (pre ext : String) (h : '.' ∉ ext.data) :
    py_endswith (pre ++ "." ++ ext) ".wav" = true ↔ ext = "wav" := by
  constructor
  · intro hw
    unfold py_endswith at hw
    rw [ List.isSuffixOf_iff_suffix, String.data_append, String.data_append] at hw
    rw [← List.reverse_prefix] at hw
    have hw2 : ['v', 'a', 'w', '.'] <+: (ext.data.reverse ++ '.' :: pre.data.reverse) := by
      simpa [List.reverse_append] using hw
    cases hL : ext.data.reverse with
    | nil =>
      rw [hL, List.nil_append] at hw2
      exact absurd (List.cons_prefix_cons.mp hw2).1 (by decide)
    | cons c1 t1 =>
      cases t1 with
      | nil =>
        rw [hL] at hw2
        obtain ⟨-, hw3⟩ := List.cons_prefix_cons.mp hw2
        exact absurd (List.cons_prefix_cons.mp hw3).1 (by decide)
      | cons c2 t2 =>
        cases t2 with
        | nil =>
          rw [hL] at hw2
          obtain ⟨-, hw3⟩ := List.cons_prefix_cons.mp hw2
          obtain ⟨-, hw4⟩ := List.cons_prefix_cons.mp hw3
          exact absurd (List.cons_prefix_cons.mp hw4).1 (by decide)
        | cons c3 t3 =>
          cases t3 with
          | nil =>
            rw [hL] at hw2
            obtain ⟨h1, hw3⟩ := List.cons_prefix_cons.mp hw2
            obtain ⟨h2, hw4⟩ := List.cons_prefix_cons.mp hw3
            obtain ⟨h3, -⟩ := List.cons_prefix_cons.mp hw4
            have hrev : ext.data = ['w', 'a', 'v'] := by
              have := congrArg List.reverse hL
              rw [List.reverse_reverse] at this
              rw [this, ← h1, ← h2, ← h3]
              rfl
            exact String.ext hrev
          | cons c4 t4 =>
            rw [hL] at hw2
            obtain ⟨-, hw3⟩ := List.cons_prefix_cons.mp hw2
            obtain ⟨-, hw4⟩ := List.cons_prefix_cons.mp hw3
            obtain ⟨-, hw5⟩ := List.cons_prefix_cons.mp hw4
            obtain ⟨h4, -⟩ := List.cons_prefix_cons.mp hw5
            have : c4 ∈ ext.data := by
              rw [← List.mem_reverse, hL]
              simp
            rw [← h4] at this
            exact absurd this h
  · rintro rfl
    have e : pre ++ "." ++ "wav" = pre ++ ".wav" := by
      apply String.ext
      rw [String.data_append, String.data_append, String.data_append, List.append_assoc]
      rfl
    rw [e]
    exact py_endswith_append pre ".wav"


theorem sample_wav_path_eq (sn : String) :
    sample_wav_path sn = sample_temp_path sn "wav" := by
  unfold sample_wav_path sample_temp_path
  rw [string_append_assoc (SAMPLES_DIR ++ "/" ++ sn) "." "wav"]
  rfl

theorem sample_temp_path_eq_wav_iff (sn ext : String) :
    sample_temp_path sn ext = sample_wav_path sn ↔ ext = "wav" := by
  rw [sample_wav_path_eq]
  constructor
  · intro h
    exact string_append_cancel_left (SAMPLES_DIR ++ "/" ++ sn ++ ".") ext "wav" h
  · rintro rfl
    rfl

theorem py_endswith_sample_temp (sn ext : String) (h : '.' ∉ ext.data) :
    py_endswith (sample_temp_path sn ext) ".wav" = true ↔ ext = "wav" :=
  py_endswith_dot_ext (SAMPLES_DIR ++ "/" ++ sn) ext h


theorem upload_sample_ok (pd : Pydub) (fs : FS) (n : String) (af : UploadFileReq)
    (c : FileData) (h : stored_content pd af = some c) :
    (upload_sample pd fs n af).2 = .ok ⟨UPLOAD_OK_MESSAGE, sanitize_filename n⟩ ∧
    ∀ p, (upload_sample pd fs n af).1 p =
      if p = sample_wav_path (sanitize_filename n) then some c
      else if p = sample_temp_path (sanitize_filename n) (py_last_split_dot af.filename)
        then none else fs p := by
  have hnd : '.' ∉ (py_last_split_dot af.filename).data :=
    py_last_split_dot_no_dot af.filename
  by_cases hwav : py_last_split_dot af.filename = "wav"
  · -- rename branch: the staging path already is the stored path
    have hc : c = .raw af.content := by
      rw [stored_content, if_pos hwav] at h
      exact (Option.some.injEq _ _ ▸ h).symm
    have hend : py_endswith (sample_temp_path (sanitize_filename n)
        (py_last_split_dot af.filename)) ".wav" = true :=
      (py_endswith_sample_temp _ _ hnd).mpr hwav
    have htemp : sample_temp_path (sanitize_filename n) (py_last_split_dot af.filename)
        = sample_wav_path (sanitize_filename n) :=
      (sample_temp_path_eq_wav_iff _ _).mpr hwav
    constructor
    · simp only [upload_sample, hend, Bool.not_true, Bool.false_eq_true, if_false]
    · intro p
      simp only [upload_sample, hend, Bool.not_true, Bool.false_eq_true, if_false]
      rw [htemp, hc]
      by_cases hp : p = sample_wav_path (sanitize_filename n)
      · simp [fsrename, fswrite, hp]
      · simp [fsrename, fswrite, hp]
  · -- convert branch
    have hend : py_endswith (sample_temp_path (sanitize_filename n)
        (py_last_split_dot af.filename)) ".wav" = false := by
      rw [Bool.eq_false_iff]
      intro htrue
      exact hwav ((py_endswith_sample_temp _ _ hnd).mp htrue)
    have hne : sample_temp_path (sanitize_filename n) (py_last_split_dot af.filename)
        ≠ sample_wav_path (sanitize_filename n) := by
      intro he
      exact hwav ((sample_temp_path_eq_wav_iff _ _).mp he)
    rw [stored_content, if_neg hwav] at h
    have hne2 : sample_wav_path (sanitize_filename n)
        ≠ sample_temp_path (sanitize_filename n) (py_last_split_dot af.filename) :=
      fun he => hne he.symm
    cases hdec : pd.decode_raw af.content with
    | error msg =>
      rw [hdec] at h
      exact absurd h (by simp)
    | ok seg =>
      rw [hdec] at h
      have hc : c = .wav (canonicalize pd seg) := by
        exact (Option.some.injEq _ _ ▸ h).symm
      constructor
      · simp only [upload_sample, hend, Bool.not_false, if_true,
          convert_to_wav, fswrite_self, from_file, hdec]
      · intro p
        simp only [upload_sample, hend, Bool.not_false, if_true,
          convert_to_wav, fswrite_self, from_file, hdec]
        rw [hc]
        by_cases hp1 : p = sample_wav_path (sanitize_filename n)
        · have hp2 : p ≠ sample_temp_path (sanitize_filename n)
              (py_last_split_dot af.filename) := by
            rw [hp1]
            exact fun he => hne he.symm
          simp [fsremove, fswrite, hp1, hp2, hne2]
        · by_cases hp2 : p = sample_temp_path (sanitize_filename n)
              (py_last_split_dot af.filename)
          · simp [fsremove, fswrite, hp1, hp2, hne]
          · simp [fsremove, fswrite, hp1, hp2]

theorem upload_ok_stored (pd : Pydub) (fs : FS) (n : String) (af : UploadFileReq)
    (r : UploadResp) (h : (upload_sample pd fs n af).2 = .ok r) :
    ∃ c, stored_content pd af = some c := by
  have hnd : '.' ∉ (py_last_split_dot af.filename).data :=
    py_last_split_dot_no_dot af.filename
  by_cases hwav : py_last_split_dot af.filename = "wav"
  · exact ⟨.raw af.content, by simp only [stored_content, if_pos hwav]⟩
  · cases hdec : pd.decode_raw af.content with
    | error msg =>
      exfalso
      have hend : py_endswith (sample_temp_path (sanitize_filename n)
          (py_last_split_dot af.filename)) ".wav" = false := by
        rw [Bool.eq_false_iff]
        intro htrue
        exact hwav ((py_endswith_sample_temp _ _ hnd).mp htrue)
      rw [upload_sample] at h
      simp only [hend, Bool.not_false, if_true,
        convert_to_wav, fswrite_self, from_file, hdec] at h
      exact absurd h (by simp)
    | ok seg =>
      exact ⟨.wav (canonicalize pd seg),
        by simp only [stored_content, if_neg hwav, hdec]⟩


/-! Characterizations of the three branches of resolve_source. -/

theorem resolve_source_named (pd : Pydub) (req : GenReq) (fs : FS) (s : String)
    (hs : req.sample_name = some s) (hne : s ≠ "")
    (hsome : (fs (generate_sample_path (sanitize_filename s))).isSome = true) :
    resolve_source pd req fs = (fs, .ok (generate_sample_path (sanitize_filename s))) := by
  have ht : py_truthy_str (some s) = true := by
    simp [py_truthy_str, hne]
  rw [resolve_source, hs]
  simp only [ht, if_true, Option.getD_some, hsome]

theorem resolve_source_inline_conv_err (pd : Pydub) (req : GenReq) (fs : FS)
    (af : UploadFileReq) (msg : String)
    (hs : py_truthy_str req.sample_name = false)
    (haf : req.audio_file = some af)
    (hwav : py_endswith (inline_temp_path af.filename) ".wav" = false)
    (hdec : pd.decode_raw af.content = .error msg) :
    resolve_source pd req fs
      = (fswrite fs (inline_temp_path af.filename) (.raw af.content),
         .error (.other msg)) := by
  rw [resolve_source]
  simp only [hs, Bool.false_eq_true, if_false, haf, hwav, Bool.not_false, if_true,
    convert_to_wav, fswrite_self, from_file, hdec]

theorem resolve_source_inline_conv_ok (pd : Pydub) (req : GenReq) (fs : FS)
    (af : UploadFileReq) (seg : AudioSeg)
    (hs : py_truthy_str req.sample_name = false)
    (haf : req.audio_file = some af)
    (hwav : py_endswith (inline_temp_path af.filename) ".wav" = false)
    (hdec : pd.decode_raw af.content = .ok seg) :
    resolve_source pd req fs
      = (fsremove (fswrite (fswrite fs (inline_temp_path af.filename) (.raw af.content))
            converted_path (.wav (canonicalize pd seg))) (inline_temp_path af.filename),
         .ok converted_path) := by
  rw [resolve_source]
  simp only [hs, Bool.false_eq_true, if_false, haf, hwav, Bool.not_false, if_true,
    convert_to_wav, fswrite_self, from_file, hdec]

theorem resolve_source_inline_wav (pd : Pydub) (req : GenReq) (fs : FS)
    (af : UploadFileReq)
    (hs : py_truthy_str req.sample_name = false)
    (haf : req.audio_file = some af)
    (hwav : py_endswith (inline_temp_path af.filename) ".wav" = true) :
    resolve_source pd req fs
      = (fsrename (fswrite fs (inline_temp_path af.filename) (.raw af.content))
          (inline_temp_path af.filename) converted_path, .ok converted_path) := by
  rw [resolve_source]
  simp only [hs, Bool.false_eq_true, if_false, haf, hwav, Bool.not_true, if_false]

theorem canonicalize_frame_rate (pd : Pydub) (a : AudioSeg) :
    (canonicalize pd a).frame_rate = 16000 := rfl

theorem isCanonicalFile_canonicalize (pd : Pydub) (a : AudioSeg) :
    isCanonicalFile pd (.wav (canonicalize pd a)) = true := rfl



/-- C9: when a request carries both a non-empty sample_name (whose sample is
stored) and an inline audio_file, resolution uses the stored sample's path
and leaves the filesystem untouched: the inline upload is never written, so
sample_name takes precedence. -/
theorem sample_name_precedence (pd : Pydub) (req : GenReq) (fs : FS)
    (s : String) (af : UploadFileReq)
    (hs : req.sample_name = some s) (hne : s ≠ "")
    (_haf : req.audio_file = some af)
    (hsome : (fs (generate_sample_path (sanitize_filename s))).isSome = true) :
    resolve_source pd req fs = (fs, .ok (generate_sample_path (sanitize_filename s))) :=
  resolve_source_named pd req fs s hs hne hsome


/-- Witness for C9 at a concrete request carrying both sources. -/
theorem sample_name_precedence_witness :
    resolve_source pdTriv
      { text := "t", sample_name := some "v", audio_file := some ⟨"ignored.wav", [1]⟩ } fsV
      = (fsV, .ok (generate_sample_path (sanitize_filename "v"))) :=
  sample_name_precedence pdTriv
    { text := "t", sample_name := some "v", audio_file := some ⟨"ignored.wav", [1]⟩ }
    fsV "v" ⟨"ignored.wav", [1]⟩ rfl (by decide) rfl (by rfl)

/-- C6: uploading a sample named "voice 1!" stores it under the sanitized
key "voice_1_", and a later generate request with the same raw name resolves
exactly the stored path /data/samples/voice_1_.wav — upload and generate
apply the same sanitization. -/
theorem upload_generate_round_trip (pd : Pydub) (fs : FS) (af : UploadFileReq)
    (r : UploadResp) (txt : String)
    (h : (upload_sample pd fs "voice 1!" af).2 = .ok r) :
    sanitize_filename "voice 1!" = "voice_1_" ∧
    r.sample_name = "voice_1_" ∧
    resolve_source pd { text := txt, sample_name := some "voice 1!" }
        (upload_sample pd fs "voice 1!" af).1
      = ((upload_sample pd fs "voice 1!" af).1,
         .ok "/data/samples/voice_1_.wav") := by
  obtain ⟨c, hc⟩ := upload_ok_stored pd fs "voice 1!" af r h
  have hu := upload_sample_ok pd fs "voice 1!" af c hc
  have hr : r = ⟨UPLOAD_OK_MESSAGE, sanitize_filename "voice 1!"⟩ := by
    have h2 := hu.1
    rw [h] at h2
    exact Except.ok.inj h2
  have hsome : ((upload_sample pd fs "voice 1!" af).1
      (generate_sample_path (sanitize_filename "voice 1!"))).isSome = true := by
    rw [hu.2 (generate_sample_path (sanitize_filename "voice 1!"))]
    rw [if_pos (by decide : generate_sample_path (sanitize_filename "voice 1!")
      = sample_wav_path (sanitize_filename "voice 1!"))]
    rfl
  refine ⟨by decide, by rw [hr]; decide, ?_⟩
  have hres := resolve_source_named pd { text := txt, sample_name := some "voice 1!" }
    (upload_sample pd fs "voice 1!" af).1 "voice 1!" rfl (by decide) hsome
  rw [hres]
  rfl

/-- Witness for C6 with a concrete mp3 upload. -/
theorem upload_generate_round_trip_witness :
    sanitize_filename "voice 1!" = "voice_1_" ∧
    (⟨UPLOAD_OK_MESSAGE, "voice_1_"⟩ : UploadResp).sample_name = "voice_1_" ∧
    resolve_source pdTriv { text := "hi", sample_name := some "voice 1!" }
        (upload_sample pdTriv fsEmpty "voice 1!" ⟨"c.mp3", [4]⟩).1
      = ((upload_sample pdTriv fsEmpty "voice 1!" ⟨"c.mp3", [4]⟩).1,
         .ok "/data/samples/voice_1_.wav") :=
  upload_generate_round_trip pdTriv fsEmpty ⟨"c.mp3", [4]⟩
    ⟨UPLOAD_OK_MESSAGE, "voice_1_"⟩ "hi" (by rfl)

/-- C4: an inline upload's bytes are staged at the output directory joined
with the client-supplied filename taken verbatim — the filename never passes
through sanitize_filename, and the two paths differ whenever sanitization
would have changed the name. -/
theorem inline_filename_unsanitized (pd : Pydub) (req : GenReq) (fs : FS)
    (af : UploadFileReq) (msg : String)
    (hs : py_truthy_str req.sample_name = false)
    (haf : req.audio_file = some af)
    (hwav : py_endswith (inline_temp_path af.filename) ".wav" = false)
    (hdec : pd.decode_raw af.content = .error msg) :
    inline_temp_path af.filename = OUTPUT_DIR ++ "/" ++ af.filename ∧
    (resolve_source pd req fs).1 (OUTPUT_DIR ++ "/" ++ af.filename)
      = some (.raw af.content) ∧
    (sanitize_filename af.filename ≠ af.filename →
      OUTPUT_DIR ++ "/" ++ af.filename ≠ OUTPUT_DIR ++ "/" ++ sanitize_filename af.filename) := by
  refine ⟨rfl, ?_, ?_⟩
  · rw [resolve_source_inline_conv_err pd req fs af msg hs haf hwav hdec]
    exact fswrite_self fs (inline_temp_path af.filename) (.raw af.content)
  · intro hne he
    exact hne (string_append_cancel_left (OUTPUT_DIR ++ "/") af.filename
      (sanitize_filename af.filename) he).symm

/-- Witness for C4 at the concrete filename "evil name.mp3". -/
theorem inline_filename_unsanitized_witness :
    inline_temp_path "evil name.mp3" = OUTPUT_DIR ++ "/" ++ "evil name.mp3" ∧
    (resolve_source pdFail { text := "t", audio_file := some ⟨"evil name.mp3", [8]⟩ }
        fsEmpty).1 (OUTPUT_DIR ++ "/" ++ "evil name.mp3") = some (.raw [8]) := by
  obtain ⟨h1, h2, -⟩ := inline_filename_unsanitized pdFail
    { text := "t", audio_file := some ⟨"evil name.mp3", [8]⟩ } fsEmpty
    ⟨"evil name.mp3", [8]⟩ "Decoding failed. ffmpeg returned error code 1"
    rfl rfl (by decide) rfl
  exact ⟨h1, h2⟩

/-- C2 amended: conversion is keyed on the file NAME, not the content.
Part 1: an inline upload whose staging path does not end in ".wav" is, on
success, converted so the resolved file satisfies CanonicalAudio. Part 2: a
sample upload whose extension is not "wav" is likewise stored canonically.
Files named ".wav" bypass conversion entirely (see the counterexample). -/
theorem conversion_applied_iff_non_wav_name :
    (∀ (pd : Pydub) (req : GenReq) (fs : FS) (af : UploadFileReq) (path : String),
      py_truthy_str req.sample_name = false → req.audio_file = some af →
      py_endswith (inline_temp_path af.filename) ".wav" = false →
      (resolve_source pd req fs).2 = .ok path →
      canonical_at pd (resolve_source pd req fs).1 path = true) ∧
    (∀ (pd : Pydub) (fs : FS) (n : String) (af : UploadFileReq) (r : UploadResp),
      py_last_split_dot af.filename ≠ "wav" →
      (upload_sample pd fs n af).2 = .ok r →
      canonical_at pd (upload_sample pd fs n af).1
        (sample_wav_path (sanitize_filename n)) = true) := by
  constructor
  · intro pd req fs af path hs haf hwav hok
    cases hdec : pd.decode_raw af.content with
    | error msg =>
      rw [resolve_source_inline_conv_err pd req fs af msg hs haf hwav hdec] at hok
      exact absurd hok (by simp)
    | ok seg =>
      rw [resolve_source_inline_conv_ok pd req fs af seg hs haf hwav hdec] at hok ⊢
      have hpath : path = converted_path := (Except.ok.inj hok).symm
      subst hpath
      have hcw : py_endswith converted_path ".wav" = true := rfl
      have hne : converted_path ≠ inline_temp_path af.filename := by
        intro he
        rw [← he, hcw] at hwav
        exact absurd hwav (by decide)
      have hfs : (fsremove (fswrite (fswrite fs (inline_temp_path af.filename)
          (.raw af.content)) converted_path (.wav (canonicalize pd seg)))
            (inline_temp_path af.filename)) converted_path
          = some (.wav (canonicalize pd seg)) := by
        simp [fsremove, fswrite, hne]
      simp only [canonical_at, hfs, Option.map_some', Option.getD_some]
      exact isCanonicalFile_canonicalize pd seg
  · intro pd fs n af r hwav hok
    obtain ⟨c, hc⟩ := upload_ok_stored pd fs n af r hok
    have hu := (upload_sample_ok pd fs n af c hc).2
    rw [stored_content, if_neg hwav] at hc
    cases hdec : pd.decode_raw af.content with
    | error m =>
      rw [hdec] at hc
      exact absurd hc (by simp)
    | ok seg =>
      rw [hdec] at hc
      have hcc : c = .wav (canonicalize pd seg) := by
        exact (Option.some.injEq _ _ ▸ hc).symm
      have hl := hu (sample_wav_path (sanitize_filename n))
      rw [if_pos rfl] at hl
      simp only [canonical_at, hl, hcc, Option.map_some', Option.getD_some]
      exact isCanonicalFile_canonicalize pd seg

/-- Witness for the amended C2 at a concrete mp3 inline upload. -/
theorem conversion_applied_iff_non_wav_name_witness :
    canonical_at pdTriv
      (resolve_source pdTriv { text := "t", audio_file := some ⟨"x.mp3", [3]⟩ } fsEmpty).1
      converted_path = true :=
  conversion_applied_iff_non_wav_name.1 pdTriv
    { text := "t", audio_file := some ⟨"x.mp3", [3]⟩ } fsEmpty ⟨"x.mp3", [3]⟩
    converted_path rfl rfl (by decide) rfl

/-- C8 amended: for every decodable input, convert_to_wav writes a WAV with
frame rate 16000, 1 channel and sample width 2 to output_path, and — provided
output_path is distinct from input_path — leaves the input file unchanged. -/
theorem convert_to_wav_canonical_distinct (pd : Pydub) (fs : FS)
    (inp outp : String) (fd : FileData) (seg : AudioSeg)
    (hneq : inp ≠ outp) (hin : fs inp = some fd) (hdec : from_file pd fd = .ok seg) :
    convert_to_wav pd fs inp outp = .ok (fswrite fs outp (.wav (canonicalize pd seg))) ∧
    fswrite fs outp (.wav (canonicalize pd seg)) outp = some (.wav (canonicalize pd seg)) ∧
    (canonicalize pd seg).frame_rate = 16000 ∧
    (canonicalize pd seg).channels = 1 ∧
    (canonicalize pd seg).sample_width = 2 ∧
    fswrite fs outp (.wav (canonicalize pd seg)) inp = fs inp := by
  refine ⟨?_, fswrite_self _ _ _, rfl, rfl, rfl,
    fswrite_other fs outp inp (.wav (canonicalize pd seg)) hneq⟩
  simp only [convert_to_wav, hin, hdec]

/-- Witness for the amended C8 at concrete distinct paths. -/
theorem convert_to_wav_canonical_distinct_witness :
    convert_to_wav pdTriv fsSingle "/tmp/in.mp3" "/tmp/out.wav"
      = .ok (fswrite fsSingle "/tmp/out.wav"
          (.wav (canonicalize pdTriv ⟨44100, 2, 2, [5]⟩))) ∧
    fswrite fsSingle "/tmp/out.wav" (.wav (canonicalize pdTriv ⟨44100, 2, 2, [5]⟩))
        "/tmp/out.wav" = some (.wav (canonicalize pdTriv ⟨44100, 2, 2, [5]⟩)) ∧
    (canonicalize pdTriv ⟨44100, 2, 2, [5]⟩).frame_rate = 16000 ∧
    (canonicalize pdTriv ⟨44100, 2, 2, [5]⟩).channels = 1 ∧
    (canonicalize pdTriv ⟨44100, 2, 2, [5]⟩).sample_width = 2 ∧
    fswrite fsSingle "/tmp/out.wav" (.wav (canonicalize pdTriv ⟨44100, 2, 2, [5]⟩))
        "/tmp/in.mp3" = fsSingle "/tmp/in.mp3" :=
  convert_to_wav_canonical_distinct pdTriv fsSingle "/tmp/in.mp3" "/tmp/out.wav"
    (.raw [5]) ⟨44100, 2, 2, [5]⟩ (by decide) rfl rfl

/-- C7: after two successful uploads whose names sanitize to the same key,
the store contains exactly one file — the canonical path of that key — and
its content is what the second upload stored; every other path (both staging
files included) is empty. -/
theorem upload_overwrite_single_file (pd : Pydub) (n1 n2 : String)
    (af1 af2 : UploadFileReq) (r1 r2 : UploadResp)
    (hk : sanitize_filename n1 = sanitize_filename n2)
    (h1 : (upload_sample pd fsEmpty n1 af1).2 = .ok r1)
    (h2 : (upload_sample pd (upload_sample pd fsEmpty n1 af1).1 n2 af2).2 = .ok r2) :
    ∃ c2, stored_content pd af2 = some c2 ∧
      ∀ p, (upload_sample pd (upload_sample pd fsEmpty n1 af1).1 n2 af2).1 p =
        if p = sample_wav_path (sanitize_filename n2) then some c2 else none := by
  obtain ⟨c1, hc1⟩ := upload_ok_stored pd fsEmpty n1 af1 r1 h1
  obtain ⟨c2, hc2⟩ := upload_ok_stored pd (upload_sample pd fsEmpty n1 af1).1 n2 af2 r2 h2
  refine ⟨c2, hc2, ?_⟩
  intro p
  have hu1 := (upload_sample_ok pd fsEmpty n1 af1 c1 hc1).2
  rw [hk] at hu1
  have hu2 := (upload_sample_ok pd (upload_sample pd fsEmpty n1 af1).1 n2 af2 c2 hc2).2
  rw [hu2 p]
  by_cases hp1 : p = sample_wav_path (sanitize_filename n2)
  · rw [if_pos hp1, if_pos hp1]
  · rw [if_neg hp1, if_neg hp1]
    by_cases hp2 : p = sample_temp_path (sanitize_filename n2) (py_last_split_dot af2.filename)
    · rw [if_pos hp2]
    · rw [if_neg hp2, hu1 p, if_neg hp1]
      by_cases hp3 : p = sample_temp_path (sanitize_filename n2) (py_last_split_dot af1.filename)
      · rw [if_pos hp3]
      · rw [if_neg hp3]
        rfl

/-- Witness for C7: an mp3 upload under "a!" then a wav upload under "a?". -/
theorem upload_overwrite_single_file_witness :
    (upload_sample pdTriv (upload_sample pdTriv fsEmpty "a!" ⟨"x.mp3", [1]⟩).1
        "a?" ⟨"y.wav", [9]⟩).1 "/data/samples/a_.wav" = some (.raw [9]) ∧
    (upload_sample pdTriv (upload_sample pdTriv fsEmpty "a!" ⟨"x.mp3", [1]⟩).1
        "a?" ⟨"y.wav", [9]⟩).1 "/data/samples/a_.mp3" = none := by
  obtain ⟨c2, hc2, hall⟩ := upload_overwrite_single_file pdTriv "a!" "a?"
    ⟨"x.mp3", [1]⟩ ⟨"y.wav", [9]⟩ ⟨UPLOAD_OK_MESSAGE, "a_"⟩ ⟨UPLOAD_OK_MESSAGE, "a_"⟩
    (by decide) (by rfl) (by rfl)
  have hc2v : stored_content pdTriv ⟨"y.wav", [9]⟩ = some (.raw [9]) := rfl
  rw [hc2v] at hc2
  have hcc : c2 = .raw [9] := by
    exact (Option.some.injEq _ _ ▸ hc2).symm
  subst hcc
  have hw : sample_wav_path (sanitize_filename "a?") = "/data/samples/a_.wav" := by decide
  constructor
  · have h := hall "/data/samples/a_.wav"
    rw [hw, if_pos rfl] at h
    exact h
  · have h := hall "/data/samples/a_.mp3"
    rw [hw, if_neg (by decide)] at h
    exact h

end ZonosApi

